import Mathlib

/-!
Verification of the `NotificationClient` request-shaping layer
(`bioblend/galaxy/notifications/__init__.py`).

The embedding models JSON values with ordered object fields (Python dicts
preserve insertion order), models the HTTP transport collaborator as a
response oracle, and renders each client method as a pure function returning
the list of HTTP requests it issued together with either the decoded response
or the message of the `ValueError` it raised.  A raised error before the
network call shows up as an empty request list paired with `Except.error`.
-/

namespace BioblendNotif

/-- A JSON-like value.  Object fields are an ordered association list,
mirroring Python dict insertion order. -/
inductive Json where
  | null : Json
  | bool : Bool → Json
  | int : Int → Json
  | str : String → Json
  | arr : List Json → Json
  | obj : List (String × Json) → Json

/-- A `datetime` value, kept abstract up to its `str(...)` rendering. -/
structure Datetime where
  text : String
deriving DecidableEq

/-- Python `str(d)` applied to a datetime. -/
def pyStr (d : Datetime) : String := d.text

/-- HTTP verb of a request. -/
inductive HttpMethod where
  | get : HttpMethod
  | post : HttpMethod
  | put : HttpMethod
deriving DecidableEq

/-- One HTTP request handed to the transport collaborator. -/
structure Request where
  method : HttpMethod
  url : String
  params : Option Json
  payload : Option Json

/-- Modelled from the spec: `Client._make_url` of the transport layer is
outside this repository; per spec section 6 every endpoint is relative to a
notifications base path, with an optional trailing path segment. -/
def makeUrl : Option String → String
  | none => "notifications"
  | some s => "notifications/" ++ s

/-- Modelled from the spec: the generic HTTP transport collaborator
(spec section 6) — `get`/`post`/`put` each perform exactly one round trip
for the request they are given and return the decoded JSON body. -/
structure Transport where
  respond : Request → Json

/-- Result of one client call: the HTTP requests actually issued, in order,
and either the decoded response or the message of the raised `ValueError`. -/
abbrev CallResult := List Request × Except String Json

/-- Python `x or []` for an optional list argument. -/
def orEmptyList (x : Option (List String)) : List String :=
  match x with
  | none => []
  | some l => if l = [] then [] else l

/-- Python truthiness of an optional dict (`if action_links:`):
true exactly when present and non-empty. -/
def pyTruthyDict (x : Option (List (String × String))) : Bool :=
  match x with
  | none => false
  | some l => !l.isEmpty

/-- Python value of an optional int slot in a params dict (`None` → null). -/
def optIntJson : Option Int → Json
  | none => Json.null
  | some n => Json.int n

/-- The loop of `broadcast_notification` over `action_links.items()`:
checks `v[:7] != "http://" and v[:8] != "https://"`, raising on the first
offending link, and otherwise accumulates `{action_name, link}` objects in
insertion order. -/
def formatActionLinks : List (String × String) → Except String (List Json)
  | [] => Except.ok []
  | (k, v) :: rest =>
    if v.take 7 ≠ "http://" ∧ v.take 8 ≠ "https://" then
      Except.error ("Link " ++ v ++ " is not a valid URL.")
    else
      (formatActionLinks rest).map
        (fun ls => Json.obj [("action_name", Json.str k), ("link", Json.str v)] :: ls)

/-- `NotificationClient.get_notification_status`: one GET to
`/status?since=<timestamp>`, response returned unchanged. -/
def get_notification_status (t : Transport) (since : Datetime) : CallResult :=
  let req : Request :=
    ⟨HttpMethod.get, makeUrl none ++ "/status?since=" ++ pyStr since, none, none⟩
  ([req], Except.ok (t.respond req))

/-- `NotificationClient.get_notification_preferences`: one GET to
`/preferences`, response returned unchanged. -/
def get_notification_preferences (t : Transport) : CallResult :=
  let req : Request := ⟨HttpMethod.get, makeUrl (some "preferences"), none, none⟩
  ([req], Except.ok (t.respond req))

/-- `NotificationClient.update_notification_preferences`: builds the nested
preferences payload and issues one PUT to `/preferences`. -/
def update_notification_preferences (t : Transport)
    (message_notifications push_notifications_message
     new_item_notifications push_notifications_new_items : Bool) : CallResult :=
  let payload : Json := Json.obj [("preferences", Json.obj [
    ("message", Json.obj [
      ("enabled", Json.bool message_notifications),
      ("channels", Json.obj [("push", Json.bool push_notifications_message)])]),
    ("new_shared_item", Json.obj [
      ("enabled", Json.bool new_item_notifications),
      ("channels", Json.obj [("push", Json.bool push_notifications_new_items)])])])]
  let req : Request := ⟨HttpMethod.put, makeUrl (some "preferences"), none, some payload⟩
  ([req], Except.ok (t.respond req))

/-- `NotificationClient.get_user_notifications`: one GET with params
`{"limit": limit, "offset": offset}`, response returned unchanged. -/
def get_user_notifications (t : Transport)
    (limit : Option Int) (offset : Option Int) : CallResult :=
  let params : Json := Json.obj [("limit", optIntJson limit), ("offset", optIntJson offset)]
  let req : Request := ⟨HttpMethod.get, makeUrl none, some params, none⟩
  ([req], Except.ok (t.respond req))

/-- `get_user_notifications()` with both arguments left at their signature
defaults (`limit=20`, `offset=None`). -/
def get_user_notifications_default (t : Transport) : CallResult :=
  get_user_notifications t (some 20) none

/-- `NotificationClient.show_notification`: one GET to `/{notification_id}`,
response returned unchanged. -/
def show_notification (t : Transport) (notification_id : String) : CallResult :=
  let req : Request := ⟨HttpMethod.get, makeUrl none ++ "/" ++ notification_id, none, none⟩
  ([req], Except.ok (t.respond req))

/-- `NotificationClient.send_notification`: validates
`user_ids == group_ids == role_ids == []` (Python chained comparison),
then builds `{recipients, notification}` and issues one POST. -/
def send_notification (t : Transport) (source variant subject message : String)
    (publication_time expiration_time : Option Datetime)
    (user_ids group_ids role_ids : Option (List String)) : CallResult :=
  if user_ids = group_ids ∧ group_ids = role_ids ∧ role_ids = some ([] : List String) then
    ([], Except.error "The message has no recipients.")
  else
    let recipients : Json := Json.obj [
      ("user_ids", Json.arr ((orEmptyList user_ids).map Json.str)),
      ("group_ids", Json.arr ((orEmptyList group_ids).map Json.str)),
      ("role_ids", Json.arr ((orEmptyList role_ids).map Json.str))]
    let contentFields : List (String × Json) := [
      ("source", Json.str source),
      ("variant", Json.str variant),
      ("category", Json.str "message"),
      ("content", Json.obj [
        ("category", Json.str "message"),
        ("subject", Json.str subject),
        ("message", Json.str message)])]
    let contentFields := match expiration_time with
      | some d => contentFields ++ [("expiration_time", Json.str (pyStr d))]
      | none => contentFields
    let contentFields := match publication_time with
      | some d => contentFields ++ [("publication_time", Json.str (pyStr d))]
      | none => contentFields
    let notif : Json := Json.obj
      [("recipients", recipients), ("notification", Json.obj contentFields)]
    let req : Request := ⟨HttpMethod.post, makeUrl none, none, some notif⟩
    ([req], Except.ok (t.respond req))

/-- `NotificationClient.broadcast_notification`: validates action links,
builds the broadcast payload and issues one POST to `/broadcast`. -/
def broadcast_notification (t : Transport) (source variant subject message : String)
    (action_links : Option (List (String × String)))
    (publication_time expiration_time : Option Datetime) : CallResult :=
  let contentBase : List (String × Json) := [
    ("category", Json.str "broadcast"),
    ("subject", Json.str subject),
    ("message", Json.str message)]
  let contentE : Except String (List (String × Json)) :=
    if pyTruthyDict action_links then
      (formatActionLinks (action_links.getD [])).map
        (fun links => contentBase ++ [("action_links", Json.arr links)])
    else
      Except.ok contentBase
  match contentE with
  | Except.error e => ([], Except.error e)
  | Except.ok contentFields =>
    let broadcastFields : List (String × Json) := [
      ("source", Json.str source),
      ("variant", Json.str variant),
      ("category", Json.str "broadcast"),
      ("content", Json.obj contentFields)]
    let broadcastFields := match expiration_time with
      | some d => broadcastFields ++ [("expiration_time", Json.str (pyStr d))]
      | none => broadcastFields
    let broadcastFields := match publication_time with
      | some d => broadcastFields ++ [("publication_time", Json.str (pyStr d))]
      | none => broadcastFields
    let req : Request :=
      ⟨HttpMethod.post, makeUrl (some "broadcast"), none, some (Json.obj broadcastFields)⟩
    ([req], Except.ok (t.respond req))

/-- A link value passes the client-side URL check. -/
def validLink (v : String) : Bool :=
  v.take 7 == "http://" || v.take 8 == "https://"

/-- Observer: the ordered field list of the `content` object inside the single
issued request's payload, when the call issued exactly one request whose
payload is an object with a `content` object field. -/
def contentFieldsOf (r : CallResult) : Option (List (String × Json)) :=
  match r.1 with
  | [req] =>
    match req.payload with
    | some (Json.obj fields) =>
      match fields.lookup "content" with
      | some (Json.obj cf) => some cf
      | _ => none
    | _ => none
  | _ => none

/-- The optional timestamp fields appended to a payload: present exactly when
the corresponding argument was supplied, serialized with `str(...)`. -/
def timeFields (expiration_time publication_time : Option Datetime) :
    List (String × Json) :=
  (match expiration_time with
   | some d => [("expiration_time", Json.str (pyStr d))]
   | none => []) ++
  (match publication_time with
   | some d => [("publication_time", Json.str (pyStr d))]
   | none => [])

/-- A transport whose every response is `null`; used for concrete evaluations. -/
def tNull : Transport := ⟨fun _ => Json.null⟩

/-- The fixed (non-timestamp) fields of the notification object built by
`send_notification`. -/
def sendContentBase (source variant subject message : String) : List (String × Json) :=
  [("source", Json.str source), ("variant", Json.str variant),
   ("category", Json.str "message"),
   ("content", Json.obj [("category", Json.str "message"),
     ("subject", Json.str subject), ("message", Json.str message)])]

/-- The recipients object of a `send_notification` payload: the three supplied
lists verbatim, with an omitted list represented as the empty list. -/
def sendRecipientsJson (uids gids rids : Option (List String)) : Json :=
  Json.obj [
    ("user_ids", Json.arr ((uids.getD []).map Json.str)),
    ("group_ids", Json.arr ((gids.getD []).map Json.str)),
    ("role_ids", Json.arr ((rids.getD []).map Json.str))]

/-- The notification object of a `send_notification` payload. -/
def sendNotifJson (source variant subject message : String)
    (pt et : Option Datetime) : Json :=
  Json.obj (sendContentBase source variant subject message ++ timeFields et pt)

/-- The single POST request issued by a non-rejected `send_notification` call. -/
def sendOkRequest (source variant subject message : String)
    (pt et : Option Datetime) (uids gids rids : Option (List String)) : Request :=
  ⟨HttpMethod.post, makeUrl none, none,
   some (Json.obj [("recipients", sendRecipientsJson uids gids rids),
     ("notification", sendNotifJson source variant subject message pt et)])⟩

/-- One `{action_name, link}` object of a broadcast payload. -/
def actionLinkJson (p : String × String) : Json :=
  Json.obj [("action_name", Json.str p.1), ("link", Json.str p.2)]

/-- The fixed leading fields of the content object built by
`broadcast_notification`. -/
def broadcastContentBase (subject message : String) : List (String × Json) :=
  [("category", Json.str "broadcast"), ("subject", Json.str subject),
   ("message", Json.str message)]

/-- The single POST request issued by a non-rejected `broadcast_notification`
call, given its content object fields. -/
def broadcastOkRequest (source variant : String) (cf : List (String × Json))
    (pt et : Option Datetime) : Request :=
  ⟨HttpMethod.post, makeUrl (some "broadcast"), none,
   some (Json.obj ([("source", Json.str source), ("variant", Json.str variant),
     ("category", Json.str "broadcast"), ("content", Json.obj cf)]
     ++ timeFields et pt))⟩

theorem recipientsChain_iff (uids gids rids : Option (List String)) :
    (uids = gids ∧ gids = rids ∧ rids = some ([] : List String)) ↔
      (uids = some [] ∧ gids = some [] ∧ rids = some []) := by
  constructor <;> rintro ⟨h1, h2, h3⟩ <;> simp_all

theorem orEmptyList_eq_getD (x : Option (List String)) :
    orEmptyList x = x.getD [] := by
  cases x with
  | none => rfl
  | some l => by_cases hl : l = [] <;> simp [orEmptyList, hl]

theorem send_notification_ok (t : Transport) (s v su m : String)
    (pt et : Option Datetime) (uids gids rids : Option (List String))
    (h : ¬(uids = some [] ∧ gids = some [] ∧ rids = some [])) :
    send_notification t s v su m pt et uids gids rids
      = ([sendOkRequest s v su m pt et uids gids rids],
         Except.ok (t.respond (sendOkRequest s v su m pt et uids gids rids))) := by
  have hc : ¬(uids = gids ∧ gids = rids ∧ rids = some ([] : List String)) := by
    rw [recipientsChain_iff]; exact h
  unfold send_notification
  rw [if_neg hc]
  cases et <;> cases pt <;>
    simp [sendOkRequest, sendNotifJson, sendContentBase, sendRecipientsJson,
      timeFields, orEmptyList_eq_getD]

theorem formatActionLinks_all_valid (links : List (String × String))
    (h : ∀ p ∈ links, validLink p.2 = true) :
    formatActionLinks links = Except.ok (links.map actionLinkJson) := by
  induction links with
  | nil => rfl
  | cons hd tl ih =>
    obtain ⟨k, v⟩ := hd
    have hv : validLink v = true := h (k, v) (List.mem_cons_self _ _)
    have hcond : ¬(v.take 7 ≠ "http://" ∧ v.take 8 ≠ "https://") := by
      simp only [validLink, Bool.or_eq_true, beq_iff_eq] at hv
      rcases hv with hv | hv <;> simp [hv]
    simp only [formatActionLinks]
    rw [if_neg hcond, ih (fun p hp => h p (List.mem_cons_of_mem _ hp))]
    rfl

theorem formatActionLinks_first_invalid (links : List (String × String))
    (h : ∃ p ∈ links, validLink p.2 = false) :
    ∃ p ∈ links, validLink p.2 = false ∧
      formatActionLinks links
        = Except.error ("Link " ++ p.2 ++ " is not a valid URL.") := by
  induction links with
  | nil => simp at h
  | cons hd tl ih =>
    obtain ⟨k, v⟩ := hd
    by_cases hv : validLink v = true
    · have hcond : ¬(v.take 7 ≠ "http://" ∧ v.take 8 ≠ "https://") := by
        simp only [validLink, Bool.or_eq_true, beq_iff_eq] at hv
        rcases hv with hv | hv <;> simp [hv]
      have htl : ∃ p ∈ tl, validLink p.2 = false := by
        rcases h with ⟨p, hp, hpf⟩
        rcases List.mem_cons.mp hp with hph | hp'
        · subst hph; simp [hv] at hpf
        · exact ⟨p, hp', hpf⟩
      obtain ⟨p, hp, hpf, herr⟩ := ih htl
      refine ⟨p, List.mem_cons_of_mem _ hp, hpf, ?_⟩
      simp only [formatActionLinks]
      rw [if_neg hcond, herr]
      rfl
    · have hvf : validLink v = false := by
        simpa using hv
      have hcond : v.take 7 ≠ "http://" ∧ v.take 8 ≠ "https://" := by
        simpa [validLink] using hvf
      refine ⟨(k, v), List.mem_cons_self _ _, hvf, ?_⟩
      simp only [formatActionLinks]
      rw [if_pos hcond]

theorem broadcast_notification_eq (t : Transport) (s v su m : String)
    (al : Option (List (String × String))) (pt et : Option Datetime) :
    broadcast_notification t s v su m al pt et =
      match (if pyTruthyDict al then
               (formatActionLinks (al.getD [])).map
                 (fun links => broadcastContentBase su m
                   ++ [("action_links", Json.arr links)])
             else Except.ok (broadcastContentBase su m)) with
      | Except.error e => ([], Except.error e)
      | Except.ok cf =>
        ([broadcastOkRequest s v cf pt et],
         Except.ok (t.respond (broadcastOkRequest s v cf pt et))) := by
  unfold broadcast_notification
  cases hB : pyTruthyDict al with
  | false =>
    simp only [hB, Bool.false_eq_true, if_false]
    cases et <;> cases pt <;>
      simp [broadcastOkRequest, broadcastContentBase, timeFields]
  | true =>
    simp only [hB, if_true]
    cases hF : formatActionLinks (al.getD []) with
    | error e =>
      simp [hF, Except.map, broadcastContentBase]
    | ok links =>
      simp only [hF, Except.map]
      cases et <;> cases pt <;>
        simp [broadcastOkRequest, broadcastContentBase, timeFields]

theorem contentFieldsOf_broadcastOkRequest (s v : String)
    (cf : List (String × Json)) (pt et : Option Datetime)
    (x : Except String Json) :
    contentFieldsOf ([broadcastOkRequest s v cf pt et], x) = some cf := by
  cases et <;> cases pt <;> rfl

/-- C1: supplying all three recipient lists as explicitly empty makes
`send_notification` raise `ValueError("The message has no recipients.")`
with zero HTTP requests issued, for every transport and every other argument. -/
theorem c1_send_all_empty_rejected (t : Transport) (s v su m : String)
    (pt et : Option Datetime) :
    send_notification t s v su m pt et (some []) (some []) (some [])
      = ([], Except.error "The message has no recipients.") := by
  rfl

/-- C2, counterexample: a `send_notification` call whose effective recipient
set is empty in all three dimensions — every recipient argument omitted
(`None`) — is not rejected client-side: it issues one POST (with an
all-empty recipients object) and returns the transport's response. -/
theorem c2_counterexample :
    send_notification tNull "galaxy" "info" "subj" "msg" none none none none none
      = ([⟨HttpMethod.post, "notifications", none, some (Json.obj [
          ("recipients", Json.obj [
            ("user_ids", Json.arr []),
            ("group_ids", Json.arr []),
            ("role_ids", Json.arr [])]),
          ("notification", Json.obj [
            ("source", Json.str "galaxy"),
            ("variant", Json.str "info"),
            ("category", Json.str "message"),
            ("content", Json.obj [
              ("category", Json.str "message"),
              ("subject", Json.str "subj"),
              ("message", Json.str "msg")])])])⟩],
        Except.ok Json.null) := by
  rfl

/-- C2, amended: `send_notification` is rejected client-side before any
network I/O (zero requests issued) if and only if `user_ids`, `group_ids` and
`role_ids` are all three explicitly supplied as empty lists; in particular a
call whose recipient arguments are omitted proceeds and issues a request even
though its effective recipient set is empty. -/
theorem c2_send_reject_iff_explicit_empty (t : Transport) (s v su m : String)
    (pt et : Option Datetime) (uids gids rids : Option (List String)) :
    (send_notification t s v su m pt et uids gids rids).1 = []
      ↔ (uids = some [] ∧ gids = some [] ∧ rids = some []) := by
  constructor
  · intro hres
    by_cases hc : uids = some [] ∧ gids = some [] ∧ rids = some []
    · exact hc
    · rw [send_notification_ok t s v su m pt et uids gids rids hc] at hres
      exact absurd hres (List.cons_ne_nil _ _)
  · rintro ⟨h1, h2, h3⟩
    subst h1; subst h2; subst h3
    rfl

/-- C2, witness for the amended theorem: with all three recipient lists
explicitly empty, zero requests are issued. -/
theorem c2_send_reject_iff_explicit_empty_witness :
    (send_notification tNull "g" "info" "s" "m" none none
        (some []) (some []) (some [])).1 = [] :=
  (c2_send_reject_iff_explicit_empty tNull "g" "info" "s" "m" none none
      (some []) (some []) (some [])).mpr ⟨rfl, rfl, rfl⟩

/-- C3: a `broadcast_notification` call whose action-links mapping contains a
value not starting with `http://` or `https://` raises
`ValueError("Link <link> is not a valid URL.")` naming an offending link of
the mapping, and issues zero HTTP requests, for every transport. -/
theorem c3_broadcast_invalid_link_rejected (t : Transport) (s v su m : String)
    (pt et : Option Datetime) (links : List (String × String))
    (h : ∃ p ∈ links, validLink p.2 = false) :
    ∃ p ∈ links, validLink p.2 = false ∧
      broadcast_notification t s v su m (some links) pt et
        = ([], Except.error ("Link " ++ p.2 ++ " is not a valid URL.")) := by
  obtain ⟨q, hq, hqf⟩ := h
  have hne : links ≠ [] := List.ne_nil_of_mem hq
  have hT : pyTruthyDict (some links) = true := by
    simp [pyTruthyDict, hne]
  obtain ⟨p, hp, hpf, herr⟩ := formatActionLinks_first_invalid links ⟨q, hq, hqf⟩
  refine ⟨p, hp, hpf, ?_⟩
  rw [broadcast_notification_eq]
  simp [hT, herr, Except.map]

/-- C3, witness: the spec's example `action_links={"x": "ftp://bad"}` (with
another, valid link also present) raises the error naming a bad link and
issues zero requests. -/
theorem c3_broadcast_invalid_link_rejected_witness :
    ∃ p ∈ [("ok", "https://fine"), ("x", "ftp://bad")], validLink p.2 = false ∧
      broadcast_notification tNull "g" "info" "su" "m"
          (some [("ok", "https://fine"), ("x", "ftp://bad")]) none none
        = ([], Except.error ("Link " ++ p.2 ++ " is not a valid URL.")) :=
  c3_broadcast_invalid_link_rejected tNull "g" "info" "su" "m" none none
    [("ok", "https://fine"), ("x", "ftp://bad")]
    ⟨("x", "ftp://bad"), by simp, by decide⟩

/-- C4: a `broadcast_notification` call with a non-empty action-links mapping
whose values all start with `http://` or `https://` issues one request whose
payload's content object carries `action_links` as the ordered sequence of
`{action_name, link}` objects in the insertion order of the mapping. -/
theorem c4_broadcast_action_links_in_order (t : Transport) (s v su m : String)
    (pt et : Option Datetime) (links : List (String × String))
    (hne : links ≠ []) (hval : ∀ p ∈ links, validLink p.2 = true) :
    contentFieldsOf (broadcast_notification t s v su m (some links) pt et)
      = some (broadcastContentBase su m
          ++ [("action_links", Json.arr (links.map actionLinkJson))])
    ∧ (broadcast_notification t s v su m (some links) pt et).1.length = 1 := by
  have hT : pyTruthyDict (some links) = true := by
    simp [pyTruthyDict, hne]
  have hF := formatActionLinks_all_valid links hval
  rw [broadcast_notification_eq]
  simp only [hT, if_true, Option.getD_some, hF, Except.map]
  exact ⟨contentFieldsOf_broadcastOkRequest s v _ pt et _, rfl⟩

/-- C4, witness: the spec's example
`{"link_1": "https://a", "link_2": "http://b"}` yields
`action_links = [{action_name: link_1, link: https://a},
{action_name: link_2, link: http://b}]` in insertion order. -/
theorem c4_broadcast_action_links_in_order_witness :
    contentFieldsOf (broadcast_notification tNull "g" "info" "su" "m"
        (some [("link_1", "https://a"), ("link_2", "http://b")]) none none)
      = some (broadcastContentBase "su" "m"
          ++ [("action_links", Json.arr
              ([("link_1", "https://a"), ("link_2", "http://b")].map actionLinkJson))])
    ∧ (broadcast_notification tNull "g" "info" "su" "m"
        (some [("link_1", "https://a"), ("link_2", "http://b")]) none none).1.length = 1 :=
  c4_broadcast_action_links_in_order tNull "g" "info" "su" "m" none none
    [("link_1", "https://a"), ("link_2", "http://b")] (by decide) (by decide)

/-- C5: a `send_notification` call in which at least one of `user_ids`,
`group_ids`, `role_ids` is a non-empty list issues exactly one POST whose
recipients object holds the three supplied lists verbatim and in order, with
any omitted list represented as the empty list, and returns the transport's
response unchanged. -/
theorem c5_send_nonempty_recipients_posts (t : Transport) (s v su m : String)
    (pt et : Option Datetime) (uids gids rids : Option (List String))
    (h : ∃ l, l ≠ ([] : List String)
      ∧ (uids = some l ∨ gids = some l ∨ rids = some l)) :
    ∃ req, send_notification t s v su m pt et uids gids rids
        = ([req], Except.ok (t.respond req))
      ∧ req.method = HttpMethod.post
      ∧ req.payload = some (Json.obj [
          ("recipients", sendRecipientsJson uids gids rids),
          ("notification", sendNotifJson s v su m pt et)]) := by
  obtain ⟨l, hl, hcase⟩ := h
  have hne : ¬(uids = some [] ∧ gids = some [] ∧ rids = some []) := by
    rintro ⟨h1, h2, h3⟩
    rcases hcase with hc | hc | hc <;> simp_all
  exact ⟨sendOkRequest s v su m pt et uids gids rids,
    send_notification_ok t s v su m pt et uids gids rids hne, rfl, rfl⟩

/-- C5, witness: sending with `user_ids=["u1"]` and the other two lists
omitted issues one POST whose recipients are `(["u1"], [], [])`. -/
theorem c5_send_nonempty_recipients_posts_witness :
    ∃ req, send_notification tNull "g" "info" "su" "m" none none
        (some ["u1"]) none none
        = ([req], Except.ok (tNull.respond req))
      ∧ req.method = HttpMethod.post
      ∧ req.payload = some (Json.obj [
          ("recipients", sendRecipientsJson (some ["u1"]) none none),
          ("notification", sendNotifJson "g" "info" "su" "m" none none)]) :=
  c5_send_nonempty_recipients_posts tNull "g" "info" "su" "m" none none
    (some ["u1"]) none none ⟨["u1"], by simp, Or.inl rfl⟩

/-- C6: `update_notification_preferences` issues exactly one PUT to the
preferences URL whose body nests the four booleans as
`{preferences: {message: {enabled, channels.push},
new_shared_item: {enabled, channels.push}}}`, and returns the decoded server
response unchanged, for every transport. -/
theorem c6_update_preferences_put (t : Transport) (b1 b2 b3 b4 : Bool) :
    ∃ req, update_notification_preferences t b1 b2 b3 b4
        = ([req], Except.ok (t.respond req))
      ∧ req = ⟨HttpMethod.put, "notifications/preferences", none,
          some (Json.obj [("preferences", Json.obj [
            ("message", Json.obj [("enabled", Json.bool b1),
              ("channels", Json.obj [("push", Json.bool b2)])]),
            ("new_shared_item", Json.obj [("enabled", Json.bool b3),
              ("channels", Json.obj [("push", Json.bool b4)])])])])⟩ :=
  ⟨_, rfl, rfl⟩

/-- C7: `get_user_notifications` issues exactly one GET whose query
parameters are exactly the given limit and offset (an omitted argument
appearing as null/absent), with no client-side filtering or slicing of the
response, which is returned unchanged for every transport; the signature
defaults are `limit=20`, `offset=None`. -/
theorem c7_get_user_notifications_passthrough (t : Transport)
    (limit offset : Option Int) :
    (∃ req, get_user_notifications t limit offset
        = ([req], Except.ok (t.respond req))
      ∧ req = ⟨HttpMethod.get, "notifications",
          some (Json.obj [("limit", optIntJson limit),
            ("offset", optIntJson offset)]), none⟩)
    ∧ get_user_notifications_default t = get_user_notifications t (some 20) none :=
  ⟨⟨_, rfl, rfl⟩, rfl⟩

/-- C8: a link-valid `broadcast_notification` call posts a body of the form
`{source, variant, category: "broadcast", content}` followed by
`expiration_time`/`publication_time` fields present exactly when the
corresponding argument was supplied, serialized with `str(...)`; and
`send_notification` likewise appends the two timestamp fields to its
notification object exactly when supplied. -/
theorem c8_timestamp_fields_iff_supplied (t : Transport) (s v su m : String)
    (al : Option (List (String × String))) (pt et : Option Datetime)
    (h : pyTruthyDict al = false ∨ ∀ p ∈ al.getD [], validLink p.2 = true) :
    (∃ cf, broadcast_notification t s v su m al pt et
        = ([broadcastOkRequest s v cf pt et],
           Except.ok (t.respond (broadcastOkRequest s v cf pt et))))
    ∧ ∀ uids gids rids, ¬(uids = some [] ∧ gids = some [] ∧ rids = some []) →
        ∃ req, send_notification t s v su m pt et uids gids rids
            = ([req], Except.ok (t.respond req))
          ∧ req.payload = some (Json.obj [
              ("recipients", sendRecipientsJson uids gids rids),
              ("notification", Json.obj (sendContentBase s v su m
                ++ timeFields et pt))]) := by
  constructor
  · by_cases hT : pyTruthyDict al = true
    · rcases h with h | h
      · rw [hT] at h; exact Bool.noConfusion h
      · rw [broadcast_notification_eq, if_pos hT,
          formatActionLinks_all_valid (al.getD []) h]
        exact ⟨_, rfl⟩
    · rw [broadcast_notification_eq, if_neg hT]
      exact ⟨_, rfl⟩
  · intro uids gids rids hne
    exact ⟨sendOkRequest s v su m pt et uids gids rids,
      send_notification_ok t s v su m pt et uids gids rids hne, rfl⟩

/-- C8, witness: broadcasting without action links and with only a
publication time supplied issues the POST, and sending to omitted recipient
lists carries exactly the publication-time field. -/
theorem c8_timestamp_fields_iff_supplied_witness :
    (∃ cf, broadcast_notification tNull "g" "info" "su" "m" none
        (some (Datetime.mk "2021-01-01 00:00:00")) none
        = ([broadcastOkRequest "g" "info" cf
             (some (Datetime.mk "2021-01-01 00:00:00")) none],
           Except.ok (tNull.respond (broadcastOkRequest "g" "info" cf
             (some (Datetime.mk "2021-01-01 00:00:00")) none))))
    ∧ ∀ uids gids rids, ¬(uids = some [] ∧ gids = some [] ∧ rids = some []) →
        ∃ req, send_notification tNull "g" "info" "su" "m"
            (some (Datetime.mk "2021-01-01 00:00:00")) none uids gids rids
            = ([req], Except.ok (tNull.respond req))
          ∧ req.payload = some (Json.obj [
              ("recipients", sendRecipientsJson uids gids rids),
              ("notification", Json.obj (sendContentBase "g" "info" "su" "m"
                ++ timeFields none (some (Datetime.mk "2021-01-01 00:00:00"))))]) :=
  c8_timestamp_fields_iff_supplied tNull "g" "info" "su" "m" none
    (some (Datetime.mk "2021-01-01 00:00:00")) none (Or.inl rfl)

/-- C9: broadcasting with `action_links` equal to an empty mapping behaves
exactly as if `action_links` were omitted: the results coincide, the content
object of the issued request carries no `action_links` field at all, and the
POST is issued. -/
theorem c9_broadcast_empty_action_links (t : Transport) (s v su m : String)
    (pt et : Option Datetime) :
    broadcast_notification t s v su m (some []) pt et
      = broadcast_notification t s v su m none pt et
    ∧ contentFieldsOf (broadcast_notification t s v su m (some []) pt et)
      = some [("category", Json.str "broadcast"), ("subject", Json.str su),
          ("message", Json.str m)]
    ∧ (broadcast_notification t s v su m (some []) pt et).1.length = 1 :=
  ⟨rfl, by cases et <;> cases pt <;> rfl, rfl⟩

/-- C10: `send_notification` raises its invalid-argument error if and only if
all three recipient arguments are explicitly the empty list; in every other
case — including all three omitted — exactly one POST is issued whose
recipients object substitutes the empty list for each omitted argument. -/
theorem c10_send_reject_exactly_explicit_empty (t : Transport) (s v su m : String)
    (pt et : Option Datetime) (uids gids rids : Option (List String)) :
    (send_notification t s v su m pt et uids gids rids
        = ([], Except.error "The message has no recipients.")
      ↔ (uids = some [] ∧ gids = some [] ∧ rids = some []))
    ∧ (¬(uids = some [] ∧ gids = some [] ∧ rids = some []) →
        ∃ req, send_notification t s v su m pt et uids gids rids
            = ([req], Except.ok (t.respond req))
          ∧ req.method = HttpMethod.post
          ∧ req.payload = some (Json.obj [
              ("recipients", sendRecipientsJson uids gids rids),
              ("notification", sendNotifJson s v su m pt et)])) := by
  constructor
  · constructor
    · intro hres
      by_cases hc : uids = some [] ∧ gids = some [] ∧ rids = some []
      · exact hc
      · rw [send_notification_ok t s v su m pt et uids gids rids hc] at hres
        exact absurd (congrArg Prod.fst hres) (List.cons_ne_nil _ _)
    · rintro ⟨h1, h2, h3⟩
      subst h1; subst h2; subst h3
      rfl
  · intro hc
    exact ⟨sendOkRequest s v su m pt et uids gids rids,
      send_notification_ok t s v su m pt et uids gids rids hc, rfl, rfl⟩

/-- C10, witness: with all three recipient arguments omitted, one POST is
issued whose recipients object is three empty lists. -/
theorem c10_send_reject_exactly_explicit_empty_witness :
    ∃ req, send_notification tNull "g" "info" "su" "m" none none none none none
        = ([req], Except.ok (tNull.respond req))
      ∧ req.method = HttpMethod.post
      ∧ req.payload = some (Json.obj [
          ("recipients", sendRecipientsJson none none none),
          ("notification", sendNotifJson "g" "info" "su" "m" none none)]) :=
  (c10_send_reject_exactly_explicit_empty tNull "g" "info" "su" "m" none none
      none none none).2 (by simp)

end BioblendNotif
